import Mathlib

/-!
Shallow embedding of the Fitbit integration core of the meal-planner
repository: the sync dispatcher (`supabase/functions/fitbit-log-meal`),
the combined connect/callback handler (`supabase/functions/fitbit-auth`),
the split initiation and callback handlers (`fitbit-oauth-start` and
`fitbit-oauth-callback`), and the UI disconnect
(`src/components/integrations/FitbitIntegration.tsx`).

JavaScript truthiness on optional strings and the `x || d` defaulting
idiom are modelled explicitly (`jsTruthy`, `jsOrNat`, `jsOrStr`), since
the source relies on them for credential checks and payload defaults.
-/

namespace FitbitCore

/-- JavaScript truthiness of a possibly-absent string: `undefined`/`null`
and the empty string are falsy, every other string is truthy. -/
def jsTruthy : Option String → Bool
  | none => false
  | some s => !(s == "")

/-- The JavaScript idiom `v || d` on a possibly-absent number: absent and
`0` (falsy) give the default. -/
def jsOrNat : Option Nat → Nat → Nat
  | none, d => d
  | some n, d => if n = 0 then d else n

/-- The JavaScript idiom `v || d` on a possibly-absent string: absent and
the empty string (falsy) give the default. -/
def jsOrStr : Option String → String → String
  | none, d => d
  | some s, d => if s = "" then d else s

/-- The `mealTypeMap` table of `getFitbitMealTypeId` in
`supabase/functions/fitbit-log-meal/index.ts`. -/
def mealTypeMap : List (String × Nat) :=
  [("breakfast", 1), ("morning-snack", 2), ("lunch", 3),
   ("afternoon-snack", 4), ("dinner", 5), ("evening-snack", 7)]

/-- `getFitbitMealTypeId` from `fitbit-log-meal/index.ts`:
`return mealTypeMap[mealType] || 1` (default to breakfast). -/
def getFitbitMealTypeId (mealType : String) : Nat :=
  jsOrNat (mealTypeMap.lookup mealType) 1

/-- The domain payload of a sync request (`mealData` in the inbound JSON
body of `fitbit-log-meal`): only `name`, `calories` and `mealType` are
always present; `brand`, `servings` and `date` are optional. -/
structure MealData where
  name : String
  brand : Option String
  servings : Option Nat
  calories : Nat
  mealType : String
  date : Option String
  deriving DecidableEq, Repr

/-- The provider-facing form fields (`fitbitFoodData` in
`logFoodToFitbit`). -/
structure FitbitFoodData where
  foodName : String
  brandName : String
  unitId : Nat
  amount : Nat
  calories : Nat
  mealTypeId : Nat
  date : String
  deriving DecidableEq, Repr

/-- The `fitbitFoodData` object built inside `logFoodToFitbit` in
`fitbit-log-meal/index.ts`; `today` stands for
`new Date().toISOString().split('T')[0]`. -/
def buildFitbitFoodData (mealData : MealData) (today : String) : FitbitFoodData :=
  { foodName := mealData.name
    brandName := jsOrStr mealData.brand ""
    unitId := 147
    amount := jsOrNat mealData.servings 1
    calories := mealData.calories
    mealTypeId := getFitbitMealTypeId mealData.mealType
    date := jsOrStr mealData.date today }

/-- A provider HTTP response, as observed by the handlers: status code and
body text. -/
structure HttpResponse where
  status : Nat
  body : String
  deriving DecidableEq, Repr

/-- The `Response.ok` accessor of the fetch API: status in the range
200-299. -/
def HttpResponse.ok (r : HttpResponse) : Bool :=
  200 ≤ r.status && r.status ≤ 299

/-- A row of the `profiles` table, restricted to the fields the
integration core reads and writes. -/
structure ProfileRow where
  user_id : String
  fitbit_access_token : Option String
  fitbit_refresh_token : Option String
  fitbit_user_id : Option String
  fitbit_connected_at : Option String
  updated_at : Option String
  deriving DecidableEq, Repr

/-- The body of a successful token-endpoint response (authorization-code
grant): `access_token`, `refresh_token` and the provider user id. -/
structure TokenData where
  access_token : String
  refresh_token : String
  user_id : String
  deriving DecidableEq, Repr

/-- The body of a successful token-endpoint response for the
refresh-token grant, as used by `refreshToken` in `fitbit-log-meal`. -/
structure RefreshData where
  access_token : String
  refresh_token : String
  deriving DecidableEq, Repr

/-- One provider food-log write (`logFoodToFitbit`): the bearer token in
the Authorization header, the `fitbit_user_id` interpolated into the URL
path, and the form-encoded payload. -/
structure WriteCall where
  token : String
  fitbitUserId : Option String
  payload : FitbitFoodData
  deriving DecidableEq, Repr

/-- The external provider seen by `fitbit-log-meal`: the food-log write
endpoint, and the token endpoint under the refresh-token grant (`none`
models a non-ok refresh response). -/
structure Provider where
  write : WriteCall → HttpResponse
  refreshExchange : Option String → Option RefreshData

/-- The environment variables read by `fitbit-log-meal/index.ts`. -/
structure LogMealEnv where
  fitbitClientId : Option String
  fitbitClientSecret : Option String
  supabaseUrl : Option String
  supabaseServiceKey : Option String
  deriving DecidableEq, Repr

/-- The failure modes of the `fitbit-log-meal` handler, one per `throw`
site: `Fitbit credentials not configured`, the throw raised inside
supabase-js when `createClient` receives an absent URL or service key
(`supabaseUrl is required.`), `User not connected to Fitbit`,
`Failed to refresh Fitbit token`, and `Fitbit API error: status - body`. -/
inductive LogMealError where
  | configError
  | supabaseClientError
  | notConnected
  | refreshFailed
  | syncFailed (status : Nat) (body : String)
  deriving DecidableEq, Repr

/-- The observable outcome of one `fitbit-log-meal` invocation: the
result, how many times the token refresher ran, the provider write calls
in order, and the stored credential row afterwards. -/
structure LogMealOutcome where
  result : Except LogMealError String
  refreshCalls : Nat
  writeCalls : List WriteCall
  db : Option ProfileRow
  deriving Repr

/-- The database update inside `refreshToken` in `fitbit-log-meal`:
overwrite both tokens with the refresh response and touch `updated_at`. -/
def refreshTokenDbUpdate (row : ProfileRow) (rd : RefreshData) (now : String) : ProfileRow :=
  { row with
    fitbit_access_token := some rd.access_token
    fitbit_refresh_token := some rd.refresh_token
    updated_at := some now }

/-- The condition `profileError || !profile?.fitbit_access_token` of the
credential load in `fitbit-log-meal` (a load error and an absent row are
merged into `none`). -/
def credentialMissing : Option ProfileRow → Bool
  | none => true
  | some profile => !(jsTruthy profile.fitbit_access_token)

/-- The `fitbit-log-meal` serve handler once a persistence client
exists: config guard, credential load guard, first write, single
refresh-and-retry on 401, final ok check. The supabase-js client
construction that precedes the credential load — and throws when the
persistence configuration is absent — is modelled on top of this in
`fitbitLogMealServe`. `today` stands for
`new Date().toISOString().split('T')[0]` and `now` for
`new Date().toISOString()`. -/
def fitbitLogMeal (env : LogMealEnv) (profileLoad : Option ProfileRow)
    (provider : Provider) (mealData : MealData) (today now : String) : LogMealOutcome :=
  if !(jsTruthy env.fitbitClientId) || !(jsTruthy env.fitbitClientSecret) then
    ⟨.error .configError, 0, [], profileLoad⟩
  else
    match profileLoad with
    | none => ⟨.error .notConnected, 0, [], none⟩
    | some profile =>
      if !(jsTruthy profile.fitbit_access_token) then
        ⟨.error .notConnected, 0, [], some profile⟩
      else
        let accessToken := profile.fitbit_access_token.getD ""
        let payload := buildFitbitFoodData mealData today
        let call1 : WriteCall := ⟨accessToken, profile.fitbit_user_id, payload⟩
        let r1 := provider.write call1
        if r1.status = 401 then
          match provider.refreshExchange profile.fitbit_refresh_token with
          | none => ⟨.error .refreshFailed, 1, [call1], some profile⟩
          | some rd =>
            let profile2 := refreshTokenDbUpdate profile rd now
            let call2 : WriteCall := ⟨rd.access_token, profile.fitbit_user_id, payload⟩
            let r2 := provider.write call2
            if !r2.ok then
              ⟨.error (.syncFailed r2.status r2.body), 1, [call1, call2], some profile2⟩
            else
              ⟨.ok r2.body, 1, [call1, call2], some profile2⟩
        else if !r1.ok then
          ⟨.error (.syncFailed r1.status r1.body), 0, [call1], some profile⟩
        else
          ⟨.ok r1.body, 0, [call1], some profile⟩

/-- The full `fitbit-log-meal` serve handler, including the
`createClient(supabaseUrl!, supabaseServiceKey!)` step that follows the
explicit Fitbit-credential guard: supabase-js throws when the URL or the
service key it receives is absent, before the request body is read,
before the credential load, and before any network call. With the
persistence configuration present the handler continues as
`fitbitLogMeal`. -/
def fitbitLogMealServe (env : LogMealEnv) (profileLoad : Option ProfileRow)
    (provider : Provider) (mealData : MealData) (today now : String) : LogMealOutcome :=
  if !(jsTruthy env.fitbitClientId) || !(jsTruthy env.fitbitClientSecret) then
    ⟨.error .configError, 0, [], profileLoad⟩
  else if !(jsTruthy env.supabaseUrl) || !(jsTruthy env.supabaseServiceKey) then
    ⟨.error .supabaseClientError, 0, [], profileLoad⟩
  else
    fitbitLogMeal env profileLoad provider mealData today now

/-- HTTP methods distinguished by the handlers. -/
inductive HttpMethod where
  | GET
  | POST
  | OPTIONS
  | other
  deriving DecidableEq, Repr

/-- The environment variables read by `fitbit-auth/index.ts`. -/
structure AuthEnv where
  fitbitClientId : Option String
  fitbitClientSecret : Option String
  supabaseUrl : Option String
  supabaseServiceKey : Option String
  deriving DecidableEq, Repr

/-- An inbound request to `fitbit-auth`: method, the `code`, `state` and
`error` query parameters, the Authorization header, and the `userId`
field of a POST JSON body. -/
structure AuthRequest where
  method : HttpMethod
  code : Option String
  state : Option String
  errorParam : Option String
  authHeader : Option String
  userId : Option String
  deriving DecidableEq, Repr

/-- The form fields of one token-endpoint call under the
authorization-code grant, as assembled by the callback branches. -/
structure ExchangeCall where
  client_id : String
  grant_type : String
  redirect_uri : String
  code : String
  deriving DecidableEq, Repr

/-- The query parameters of the provider authorization URL assembled by
the connect paths. -/
structure AuthUrlParams where
  response_type : String
  client_id : String
  redirect_uri : String
  scope : String
  state : String
  deriving DecidableEq, Repr

/-- The scope string of `fitbit-auth/index.ts`:
`const scope = 'nutrition weight heartrate activity location profile sleep'`. -/
def fitbitAuthScope : String :=
  "nutrition weight heartrate activity location profile sleep"

/-- The redirect address computed in both branches of `fitbit-auth`:
the expression `${supabaseUrl}/functions/v1/fitbit-auth`. -/
def fitbitAuthRedirectUri (supabaseUrl : String) : String :=
  supabaseUrl ++ "/functions/v1/fitbit-auth"

/-- The row upserted by the `fitbit-auth` callback branch: keyed by the
raw `state` parameter, with both tokens and the provider user id from
the token response. -/
def fitbitAuthUpsertRow (state : String) (td : TokenData) (now : String) : ProfileRow :=
  { user_id := state
    fitbit_access_token := some td.access_token
    fitbit_refresh_token := some td.refresh_token
    fitbit_user_id := some td.user_id
    fitbit_connected_at := some now
    updated_at := some now }

/-- The observable outcome of one `fitbit-auth` invocation: response
status, token-endpoint calls, credential upserts, and the authorization
URL parameters of a successful POST. -/
structure AuthOutcome where
  status : Nat
  exchangeCalls : List ExchangeCall
  upserts : List ProfileRow
  authUrl : Option AuthUrlParams
  deriving Repr

/-- The `fitbit-auth` serve handler: CORS preflight, the four-variable
environment guard, the GET callback branch (dispatched on the presence
of a `code` parameter; the `error` parameter is never read), the POST
connect branch, and the method-not-allowed and catch-all (500)
responses. `tokenEndpoint` models the provider token endpoint
(`Except.error` is a non-ok response). -/
def fitbitAuthHandler (env : AuthEnv) (req : AuthRequest)
    (tokenEndpoint : ExchangeCall → Except HttpResponse TokenData)
    (now : String) : AuthOutcome :=
  if req.method = .OPTIONS then ⟨200, [], [], none⟩
  else if !(jsTruthy env.fitbitClientId) || !(jsTruthy env.fitbitClientSecret)
      || !(jsTruthy env.supabaseUrl) || !(jsTruthy env.supabaseServiceKey) then
    ⟨500, [], [], none⟩
  else
    let fitbitClientId := env.fitbitClientId.getD ""
    let supabaseUrl := env.supabaseUrl.getD ""
    if req.method = .GET && req.code.isSome then
      if !(jsTruthy req.code) || !(jsTruthy req.state) then
        ⟨500, [], [], none⟩
      else
        let redirectUri := fitbitAuthRedirectUri supabaseUrl
        let call : ExchangeCall :=
          ⟨fitbitClientId, "authorization_code", redirectUri, req.code.getD ""⟩
        match tokenEndpoint call with
        | .error _ => ⟨500, [call], [], none⟩
        | .ok tokenData =>
          ⟨200, [call], [fitbitAuthUpsertRow (req.state.getD "") tokenData now], none⟩
    else if req.method = .POST then
      if !(jsTruthy req.authHeader) then ⟨401, [], [], none⟩
      else if !(jsTruthy req.userId) then ⟨500, [], [], none⟩
      else
        let redirectUri := fitbitAuthRedirectUri supabaseUrl
        ⟨200, [], [],
          some ⟨"code", fitbitClientId, redirectUri, fitbitAuthScope, req.userId.getD ""⟩⟩
    else ⟨405, [], [], none⟩

/-- The observable outcome of one `fitbit-oauth-start` invocation. -/
structure StartOutcome where
  status : Nat
  authUrl : Option AuthUrlParams
  state : Option String
  deriving DecidableEq, Repr

/-- The `fitbit-oauth-start` serve handler: hardcoded client id and
redirect address, a 400 response on a falsy `userId`, and the
authorization URL with state `` `${crypto.randomUUID()}_${userId}` ``
(`uuid` stands for the generated UUID). -/
def fitbitOauthStartHandler (userId : Option String) (uuid : String) : StartOutcome :=
  if !(jsTruthy userId) then ⟨400, none, none⟩
  else
    let state := uuid ++ "_" ++ userId.getD ""
    ⟨200,
      some ⟨"code", "23TJDY",
        "https://wmqfonczkedrrdnfwpfc.supabase.co/functions/v1/fitbit-oauth-callback",
        "nutrition profile weight activity heartrate sleep", state⟩,
      some state⟩

/-- The environment variables read by `fitbit-oauth-callback`. -/
structure CallbackEnv where
  fitbitClientId : Option String
  fitbitClientSecret : Option String
  fitbitRedirectUri : Option String
  supabaseUrl : Option String
  supabaseServiceKey : Option String
  deriving DecidableEq, Repr

/-- An inbound request to `fitbit-oauth-callback`: method and the
`code`, `state`, `error` and `user_id` query parameters. -/
structure CallbackRequest where
  method : HttpMethod
  code : Option String
  state : Option String
  errorParam : Option String
  user_id : Option String
  deriving DecidableEq, Repr

/-- The response classes of `fitbit-oauth-callback`: CORS preflight, the
consent-declined HTML page of the `error` branch, the catch-all HTML
error page (one per `throw` message), and the success page. -/
inductive CallbackResult where
  | corsPreflight
  | declined (e : String)
  | errorPage (msg : String)
  | connected
  deriving DecidableEq, Repr

/-- The observable outcome of one `fitbit-oauth-callback` invocation. -/
structure CallbackOutcome where
  result : CallbackResult
  exchangeCalls : List ExchangeCall
  upserts : List ProfileRow
  deriving Repr

/-- The row upserted by `fitbit-oauth-callback`: keyed by the `user_id`
query parameter, tokens from the exchange, provider id taken from the
provider profile endpoint response (`userData.user.encodedId`). -/
def oauthCallbackUpsertRow (userId : String) (td : TokenData)
    (encodedId : String) (now : String) : ProfileRow :=
  { user_id := userId
    fitbit_access_token := some td.access_token
    fitbit_refresh_token := some td.refresh_token
    fitbit_user_id := some encodedId
    fitbit_connected_at := some now
    updated_at := some now }

/-- The `fitbit-oauth-callback` serve handler (source file of the
`fitbit-oauth-callback` function): the `error` branch first, then the
code guard, the five-variable environment guard, the token exchange,
the provider profile fetch (`userProfile` models its body, `none` a
non-ok response), the `user_id` guard, and the upsert. -/
def fitbitOauthCallbackHandler (env : CallbackEnv) (req : CallbackRequest)
    (tokenEndpoint : ExchangeCall → Except HttpResponse TokenData)
    (userProfile : String → Option String) (now : String) : CallbackOutcome :=
  if req.method = .OPTIONS then ⟨.corsPreflight, [], []⟩
  else if jsTruthy req.errorParam then ⟨.declined (req.errorParam.getD ""), [], []⟩
  else if !(jsTruthy req.code) then
    ⟨.errorPage "No authorization code received", [], []⟩
  else if !(jsTruthy env.fitbitClientId) || !(jsTruthy env.fitbitClientSecret)
      || !(jsTruthy env.fitbitRedirectUri) || !(jsTruthy env.supabaseUrl)
      || !(jsTruthy env.supabaseServiceKey) then
    ⟨.errorPage "Missing required environment variables", [], []⟩
  else
    let call : ExchangeCall :=
      ⟨env.fitbitClientId.getD "", "authorization_code",
        env.fitbitRedirectUri.getD "", req.code.getD ""⟩
    match tokenEndpoint call with
    | .error _ => ⟨.errorPage "Token exchange failed", [call], []⟩
    | .ok tokenData =>
      match userProfile tokenData.access_token with
      | none => ⟨.errorPage "Failed to get Fitbit user profile", [call], []⟩
      | some encodedId =>
        if !(jsTruthy req.user_id) then
          ⟨.errorPage "User ID not found in callback", [call], []⟩
        else
          ⟨.connected, [call],
            [oauthCallbackUpsertRow (req.user_id.getD "") tokenData encodedId now]⟩

/-- The `disconnectFitbit` update in
`src/components/integrations/FitbitIntegration.tsx`: all four credential
fields set to null, `updated_at` touched. -/
def disconnectDbUpdate (row : ProfileRow) (now : String) : ProfileRow :=
  { row with
    fitbit_access_token := none
    fitbit_refresh_token := none
    fitbit_user_id := none
    fitbit_connected_at := none
    updated_at := some now }

/-- The credential-pair invariant of the spec data model: access and
refresh token both present or both absent. -/
def tokenPairConsistent (row : ProfileRow) : Prop :=
  row.fitbit_access_token.isSome ↔ row.fitbit_refresh_token.isSome

/-- The scope list named by the spec for the connect URL — nutrition,
weight, heart-rate, activity, location, profile, sleep — written as the
space-delimited provider scope string, for comparison with the scope the
code sends. -/
def specConnectScope : String :=
  "nutrition weight heartrate activity location profile sleep"

/-- The first provider write of a sync: the stored access token, the
stored provider user id, and the translated payload. -/
def firstWriteCall (profile : ProfileRow) (mealData : MealData) (today : String) : WriteCall :=
  ⟨profile.fitbit_access_token.getD "", profile.fitbit_user_id, buildFitbitFoodData mealData today⟩

/-- The retried provider write of a sync after a refresh: the new access
token with the same provider user id and payload. -/
def retryWriteCall (profile : ProfileRow) (rd : RefreshData) (mealData : MealData)
    (today : String) : WriteCall :=
  ⟨rd.access_token, profile.fitbit_user_id, buildFitbitFoodData mealData today⟩

end FitbitCore

namespace FitbitCore

/-- Claim C2: with the provider configuration present, a sync invocation
whose credential load yields no record or no access token fails with
`NotConnected` (the `User not connected to Fitbit` error) and performs
no network call: no token-endpoint call and no provider write. -/
theorem sync_not_connected_no_network
    (env : LogMealEnv) (profileLoad : Option ProfileRow) (provider : Provider)
    (mealData : MealData) (today now : String)
    (hc1 : jsTruthy env.fitbitClientId = true)
    (hc2 : jsTruthy env.fitbitClientSecret = true)
    (hmiss : credentialMissing profileLoad = true) :
    (fitbitLogMeal env profileLoad provider mealData today now).result
        = .error .notConnected ∧
    (fitbitLogMeal env profileLoad provider mealData today now).refreshCalls = 0 ∧
    (fitbitLogMeal env profileLoad provider mealData today now).writeCalls = [] := by
  cases profileLoad with
  | none => simp [fitbitLogMeal, hc1, hc2]
  | some profile =>
    simp only [credentialMissing, Bool.not_eq_true'] at hmiss
    simp [fitbitLogMeal, hc1, hc2, hmiss]

/-- Witness for `sync_not_connected_no_network` at a concrete
environment and an empty credential load. -/
theorem sync_not_connected_no_network_witness :
    (fitbitLogMeal ⟨some "cid", some "csec", some "url", some "key"⟩ none
        ⟨fun _ => ⟨200, "ok"⟩, fun _ => some ⟨"A2", "R2"⟩⟩
        ⟨"Test Meal", none, none, 300, "lunch", none⟩ "2025-01-01" "t0").result
        = .error .notConnected ∧
    (fitbitLogMeal ⟨some "cid", some "csec", some "url", some "key"⟩ none
        ⟨fun _ => ⟨200, "ok"⟩, fun _ => some ⟨"A2", "R2"⟩⟩
        ⟨"Test Meal", none, none, 300, "lunch", none⟩ "2025-01-01" "t0").refreshCalls = 0 ∧
    (fitbitLogMeal ⟨some "cid", some "csec", some "url", some "key"⟩ none
        ⟨fun _ => ⟨200, "ok"⟩, fun _ => some ⟨"A2", "R2"⟩⟩
        ⟨"Test Meal", none, none, 300, "lunch", none⟩ "2025-01-01" "t0").writeCalls = [] :=
  sync_not_connected_no_network _ none _ _ _ _ (by decide) (by decide) (by decide)

/-- Claim C3: each credential write of the integration — the
authorization-completion upserts of `fitbit-auth` and of
`fitbit-oauth-callback`, the refresh update of `fitbit-log-meal`, and
the disconnect clear of `FitbitIntegration.tsx` — yields a row in which
the access token and the refresh token are both present or both absent. -/
theorem credential_writes_token_pair_consistent :
    (∀ row rd now, tokenPairConsistent (refreshTokenDbUpdate row rd now)) ∧
    (∀ st td now, tokenPairConsistent (fitbitAuthUpsertRow st td now)) ∧
    (∀ uid td enc now, tokenPairConsistent (oauthCallbackUpsertRow uid td enc now)) ∧
    (∀ row now, tokenPairConsistent (disconnectDbUpdate row now)) := by
  refine ⟨fun row rd now => ?_, fun st td now => ?_, fun uid td enc now => ?_,
    fun row now => ?_⟩ <;>
    simp [tokenPairConsistent, refreshTokenDbUpdate, fitbitAuthUpsertRow,
      oauthCallbackUpsertRow, disconnectDbUpdate]

/-- Claim C1: for a sync invocation that reaches the provider write, the
token refresher runs exactly once iff the first write returns 401; on a
401 with a successful refresh the write is retried exactly once with the
new access token; a second 401 ends the operation with `SyncFailed` and
no second refresh; a non-401 failure is `SyncFailed` with no refresh at
all; and there is never more than one refresh per call. -/
theorem sync_single_refresh_retry
    (env : LogMealEnv) (profile : ProfileRow) (provider : Provider)
    (mealData : MealData) (today now : String)
    (hc1 : jsTruthy env.fitbitClientId = true)
    (hc2 : jsTruthy env.fitbitClientSecret = true)
    (hconn : jsTruthy profile.fitbit_access_token = true) :
    ((fitbitLogMeal env (some profile) provider mealData today now).refreshCalls = 1
      ↔ (provider.write (firstWriteCall profile mealData today)).status = 401) ∧
    (fitbitLogMeal env (some profile) provider mealData today now).refreshCalls ≤ 1 ∧
    ((provider.write (firstWriteCall profile mealData today)).status ≠ 401 →
      (fitbitLogMeal env (some profile) provider mealData today now).refreshCalls = 0 ∧
      (fitbitLogMeal env (some profile) provider mealData today now).writeCalls
        = [firstWriteCall profile mealData today] ∧
      ((provider.write (firstWriteCall profile mealData today)).ok = false →
        (fitbitLogMeal env (some profile) provider mealData today now).result
          = .error (.syncFailed (provider.write (firstWriteCall profile mealData today)).status
              (provider.write (firstWriteCall profile mealData today)).body))) ∧
    ((provider.write (firstWriteCall profile mealData today)).status = 401 →
      ∀ rd, provider.refreshExchange profile.fitbit_refresh_token = some rd →
        (fitbitLogMeal env (some profile) provider mealData today now).writeCalls
          = [firstWriteCall profile mealData today, retryWriteCall profile rd mealData today] ∧
        ((provider.write (retryWriteCall profile rd mealData today)).status = 401 →
          (fitbitLogMeal env (some profile) provider mealData today now).result
            = .error (.syncFailed 401
                (provider.write (retryWriteCall profile rd mealData today)).body) ∧
          (fitbitLogMeal env (some profile) provider mealData today now).refreshCalls = 1)) := by
  simp only [fitbitLogMeal, hc1, hc2, hconn, Bool.not_true, Bool.false_or,
    Bool.or_self, if_false, firstWriteCall, retryWriteCall]
  set c1 : WriteCall := ⟨profile.fitbit_access_token.getD "", profile.fitbit_user_id,
    buildFitbitFoodData mealData today⟩ with hc
  by_cases h401 : (provider.write c1).status = 401
  · simp only [h401, if_true, if_pos]
    cases hrd : provider.refreshExchange profile.fitbit_refresh_token with
    | none => simp
    | some rd =>
      by_cases hr2 : (provider.write ⟨rd.access_token, profile.fitbit_user_id,
          buildFitbitFoodData mealData today⟩).status = 401
      · have hnok : (provider.write ⟨rd.access_token, profile.fitbit_user_id,
            buildFitbitFoodData mealData today⟩).ok = false := by
          simp [HttpResponse.ok, hr2]
        simp [hnok, hr2, h401]
      · by_cases hok : (provider.write ⟨rd.access_token, profile.fitbit_user_id,
            buildFitbitFoodData mealData today⟩).ok = false
        · simp [hok, hr2, h401]
        · simp [hok, hr2, h401]
  · rw [if_neg h401]
    by_cases hok : (provider.write ⟨profile.fitbit_access_token.getD "", profile.fitbit_user_id,
        buildFitbitFoodData mealData today⟩).ok = false
    · simp [hok, h401]
    · simp [hok, h401]

/-- A concrete environment with all four variables present. -/
def envOkFixture : LogMealEnv :=
  ⟨some "cid", some "csec", some "https://proj.supabase.co", some "srk"⟩

/-- A concrete connected credential row. -/
def profileFixture : ProfileRow :=
  ⟨"u1", some "AT", some "RT", some "F1", some "c0", some "t0"⟩

/-- A concrete sync payload. -/
def mealFixture : MealData := ⟨"Test Meal", none, none, 300, "lunch", none⟩

/-- A concrete provider that answers 401 to the stored token `AT` and
200 to any other token, and always refreshes to the pair `A2`/`R2`. -/
def provider401Fixture : Provider :=
  ⟨fun c => if c.token = "AT" then ⟨401, "expired"⟩ else ⟨200, "ok"⟩,
   fun _ => some ⟨"A2", "R2"⟩⟩

/-- Witness for `sync_single_refresh_retry`: an expired stored token
triggers exactly one refresh and one retried write with the new token. -/
theorem sync_single_refresh_retry_witness :
    (fitbitLogMeal envOkFixture (some profileFixture) provider401Fixture
        mealFixture "2025-01-01" "t1").refreshCalls = 1 ∧
    (fitbitLogMeal envOkFixture (some profileFixture) provider401Fixture
        mealFixture "2025-01-01" "t1").writeCalls
      = [firstWriteCall profileFixture mealFixture "2025-01-01",
         retryWriteCall profileFixture ⟨"A2", "R2"⟩ mealFixture "2025-01-01"] := by
  have h := sync_single_refresh_retry envOkFixture profileFixture provider401Fixture
    mealFixture "2025-01-01" "t1" (by decide) (by decide) (by decide)
  exact ⟨h.1.mpr (by decide), (h.2.2.2 (by decide) ⟨"A2", "R2"⟩ (by decide)).1⟩

/-- A truthy optional string is present. -/
lemma jsTruthy_isSome {o : Option String} (h : jsTruthy o = true) : o.isSome := by
  cases o <;> simp [jsTruthy] at h ⊢

/-- A truthy optional string equals `some` of its default-extracted
value. -/
lemma jsTruthy_eq_some {o : Option String} (h : jsTruthy o = true) :
    o = some (o.getD "") := by
  cases o <;> simp [jsTruthy] at h ⊢

/-- A concrete `fitbit-auth` environment with all four variables
present. -/
def authEnvFixture : AuthEnv :=
  ⟨some "cid", some "csec", some "https://proj.supabase.co", some "srk"⟩

/-- A concrete token endpoint that always answers with the token set
`A1`/`R1`/`F1`. -/
def exchangeOkFixture : ExchangeCall → Except HttpResponse TokenData :=
  fun _ => .ok ⟨"A1", "R1", "F1"⟩

/-- A concrete provider whose write always succeeds. -/
def providerOkFixture : Provider :=
  ⟨fun _ => ⟨200, "ok"⟩, fun _ => some ⟨"A2", "R2"⟩⟩

/-- Claim C7: every credential row the `fitbit-auth` callback writes is
keyed by exactly the raw `state` parameter of the request, and for any
state value whatsoever a successful exchange writes that row — the
handler consults no record of initiations, so no server-side
verification of the state value takes place. -/
theorem callback_upsert_keyed_by_raw_state :
    (∀ env req tokenEndpoint now row,
      row ∈ (fitbitAuthHandler env req tokenEndpoint now).upserts →
      req.state = some row.user_id) ∧
    (∀ env req tokenEndpoint now td,
      (jsTruthy env.fitbitClientId && jsTruthy env.fitbitClientSecret
        && jsTruthy env.supabaseUrl && jsTruthy env.supabaseServiceKey) = true →
      req.method = HttpMethod.GET → jsTruthy req.code = true → jsTruthy req.state = true →
      tokenEndpoint ⟨env.fitbitClientId.getD "", "authorization_code",
        fitbitAuthRedirectUri (env.supabaseUrl.getD ""), req.code.getD ""⟩ = .ok td →
      (fitbitAuthHandler env req tokenEndpoint now).upserts
        = [fitbitAuthUpsertRow (req.state.getD "") td now]) := by
  constructor
  · intro env req tokenEndpoint now row hmem
    unfold fitbitAuthHandler at hmem
    split at hmem
    · simp at hmem
    · split at hmem
      · simp at hmem
      · split at hmem
        · split at hmem
          · simp at hmem
          · rename_i hguard
            simp at hguard
            dsimp only at hmem
            split at hmem
            · simp at hmem
            · simp only [List.mem_singleton] at hmem
              subst hmem
              simp [fitbitAuthUpsertRow]
              exact jsTruthy_eq_some hguard.2
        · split at hmem
          · split at hmem
            · simp at hmem
            · split at hmem <;> simp at hmem
          · simp at hmem
  · intro env req tokenEndpoint now td henv hm hcode hstate hex
    simp [Bool.and_eq_true] at henv
    obtain ⟨⟨⟨h1, h2⟩, h3⟩, h4⟩ := henv
    simp [fitbitAuthHandler, hm, h1, h2, h3, h4, hcode, hstate, jsTruthy_isSome hcode, hex]

/-- Witness for `callback_upsert_keyed_by_raw_state`: a concrete
callback with state `u1` writes exactly the row keyed `u1`. -/
theorem callback_upsert_keyed_by_raw_state_witness :
    (⟨HttpMethod.GET, some "abc", some "u1", none, none, none⟩ : AuthRequest).state
      = some (fitbitAuthUpsertRow "u1" ⟨"A1", "R1", "F1"⟩ "t1").user_id ∧
    (fitbitAuthHandler authEnvFixture ⟨.GET, some "abc", some "u1", none, none, none⟩
        exchangeOkFixture "t1").upserts
      = [fitbitAuthUpsertRow "u1" ⟨"A1", "R1", "F1"⟩ "t1"] :=
  ⟨callback_upsert_keyed_by_raw_state.1 authEnvFixture
      ⟨.GET, some "abc", some "u1", none, none, none⟩ exchangeOkFixture "t1"
      (fitbitAuthUpsertRow "u1" ⟨"A1", "R1", "F1"⟩ "t1") (by decide),
   callback_upsert_keyed_by_raw_state.2 authEnvFixture
      ⟨.GET, some "abc", some "u1", none, none, none⟩ exchangeOkFixture "t1"
      ⟨"A1", "R1", "F1"⟩ (by decide) rfl (by decide) (by decide) rfl⟩

/-- Counterexample to claim C5 as stated: the `fitbit-oauth-start`
connect path — one of the two connect implementations the claim covers —
emits a six-item scope without `location`, which differs from the fixed
seven-item scope list the claim names. -/
theorem connect_url_scope_counterexample :
    (fitbitOauthStartHandler (some "u1") "123e4567").authUrl.map AuthUrlParams.scope
      = some "nutrition profile weight activity heartrate sleep" ∧
    "nutrition profile weight activity heartrate sleep" ≠ specConnectScope :=
  ⟨rfl, by decide⟩

/-- Claim C5 amended: for the `fitbit-auth` connect path the
authorization URL has response type `code`, the configured client id,
the full seven-item scope list, and a redirect address byte-for-byte
equal to the `redirect_uri` the same function's callback branch sends in
its token exchange; the `fitbit-oauth-start` path instead emits the
six-item scope without `location` (and a hardcoded callback address). -/
theorem connect_url_params_amended
    (env : AuthEnv) (postReq cbReq : AuthRequest)
    (tokenEndpoint : ExchangeCall → Except HttpResponse TokenData) (now : String)
    (h1 : jsTruthy env.fitbitClientId = true) (h2 : jsTruthy env.fitbitClientSecret = true)
    (h3 : jsTruthy env.supabaseUrl = true) (h4 : jsTruthy env.supabaseServiceKey = true)
    (hpm : postReq.method = HttpMethod.POST)
    (hah : jsTruthy postReq.authHeader = true)
    (huid : jsTruthy postReq.userId = true)
    (hcm : cbReq.method = HttpMethod.GET)
    (hcc : jsTruthy cbReq.code = true) (hcs : jsTruthy cbReq.state = true) :
    (fitbitAuthHandler env postReq tokenEndpoint now).authUrl
      = some ⟨"code", env.fitbitClientId.getD "",
          fitbitAuthRedirectUri (env.supabaseUrl.getD ""), specConnectScope,
          postReq.userId.getD ""⟩ ∧
    (fitbitAuthHandler env cbReq tokenEndpoint now).exchangeCalls.map ExchangeCall.redirect_uri
      = [fitbitAuthRedirectUri (env.supabaseUrl.getD "")] ∧
    (∀ userId uuid, jsTruthy userId = true →
      (fitbitOauthStartHandler userId uuid).authUrl.map AuthUrlParams.scope
        = some "nutrition profile weight activity heartrate sleep") := by
  refine ⟨?_, ?_, ?_⟩
  · simp [fitbitAuthHandler, hpm, h1, h2, h3, h4, hah, huid, fitbitAuthScope, specConnectScope]
  · have hsome : cbReq.code.isSome := jsTruthy_isSome hcc
    simp only [fitbitAuthHandler, hcm, h1, h2, h3, h4, hcc, hcs, hsome]
    simp only [Bool.not_true, Bool.or_self, Bool.false_or, if_false, decide_True,
      Bool.and_self, if_true]
    cases tokenEndpoint ⟨env.fitbitClientId.getD "", "authorization_code",
        fitbitAuthRedirectUri (env.supabaseUrl.getD ""), cbReq.code.getD ""⟩ <;> simp
  · intro userId uuid huid2
    simp [fitbitOauthStartHandler, huid2]

/-- Witness for `connect_url_params_amended` at a concrete environment,
connect request and callback request. -/
theorem connect_url_params_amended_witness :
    (fitbitAuthHandler authEnvFixture
        ⟨.POST, none, none, none, some "Bearer tok", some "u1"⟩
        exchangeOkFixture "t1").authUrl
      = some ⟨"code", "cid", fitbitAuthRedirectUri "https://proj.supabase.co",
          specConnectScope, "u1"⟩ ∧
    (fitbitAuthHandler authEnvFixture ⟨.GET, some "abc", some "u1", none, none, none⟩
        exchangeOkFixture "t1").exchangeCalls.map ExchangeCall.redirect_uri
      = [fitbitAuthRedirectUri "https://proj.supabase.co"] ∧
    (fitbitOauthStartHandler (some "u1") "uuid0").authUrl.map AuthUrlParams.scope
      = some "nutrition profile weight activity heartrate sleep" := by
  have h := connect_url_params_amended authEnvFixture
    ⟨.POST, none, none, none, some "Bearer tok", some "u1"⟩
    ⟨.GET, some "abc", some "u1", none, none, none⟩ exchangeOkFixture "t1"
    (by decide) (by decide) (by decide) (by decide) rfl (by decide) (by decide)
    rfl (by decide) (by decide)
  exact ⟨h.1, h.2.1, h.2.2 (some "u1") "uuid0" (by decide)⟩

/-- Counterexample to claim C6 as stated: a callback to `fitbit-auth`
carrying both a `code` and an `error` parameter (error `access_denied`)
performs the token exchange and completes with status 200 — the handler
never reads the `error` parameter. -/
theorem callback_error_ignored_counterexample :
    ((fitbitAuthHandler authEnvFixture
        ⟨.GET, some "abc", some "u1", some "access_denied", none, none⟩
        exchangeOkFixture "t1").exchangeCalls).length = 1 ∧
    (fitbitAuthHandler authEnvFixture
        ⟨.GET, some "abc", some "u1", some "access_denied", none, none⟩
        exchangeOkFixture "t1").status = 200 :=
  ⟨rfl, rfl⟩

/-- Claim C6 amended: `fitbit-oauth-callback` answers a callback whose
`error` parameter is set with a failure page and performs no token
exchange and no write, regardless of any `code`; `fitbit-auth` does so
only when no `code` parameter is present (it then answers with a non-200
failure and makes no exchange call), and ignores the `error` parameter
whenever a `code` accompanies it. -/
theorem callback_error_no_exchange_amended :
    (∀ env req tokenEndpoint userProfile now,
      req.method ≠ HttpMethod.OPTIONS → jsTruthy req.errorParam = true →
      (fitbitOauthCallbackHandler env req tokenEndpoint userProfile now).result
          = .declined (req.errorParam.getD "") ∧
      (fitbitOauthCallbackHandler env req tokenEndpoint userProfile now).exchangeCalls = [] ∧
      (fitbitOauthCallbackHandler env req tokenEndpoint userProfile now).upserts = []) ∧
    (∀ env req tokenEndpoint now,
      req.method = HttpMethod.GET → req.code = none → jsTruthy req.errorParam = true →
      (fitbitAuthHandler env req tokenEndpoint now).exchangeCalls = [] ∧
      (fitbitAuthHandler env req tokenEndpoint now).upserts = [] ∧
      (fitbitAuthHandler env req tokenEndpoint now).status ≠ 200) := by
  constructor
  · intro env req tokenEndpoint userProfile now hm herr
    simp [fitbitOauthCallbackHandler, hm, herr]
  · intro env req tokenEndpoint now hm hcode herr
    by_cases henv : (!jsTruthy env.fitbitClientId || !jsTruthy env.fitbitClientSecret
        || !jsTruthy env.supabaseUrl || !jsTruthy env.supabaseServiceKey) = true
    · simp [fitbitAuthHandler, hm, hcode, henv]
    · simp [fitbitAuthHandler, hm, hcode, henv]

/-- A concrete `fitbit-oauth-callback` environment with all five
variables present. -/
def callbackEnvFixture : CallbackEnv :=
  ⟨some "cid", some "csec", some "https://cb.example/fitbit-oauth-callback",
   some "https://proj.supabase.co", some "srk"⟩

/-- Witness for `callback_error_no_exchange_amended` at concrete
declined callbacks to both handlers. -/
theorem callback_error_no_exchange_amended_witness :
    ((fitbitOauthCallbackHandler callbackEnvFixture
        ⟨.GET, some "abc", some "st1", some "access_denied", some "u1"⟩
        exchangeOkFixture (fun _ => some "ENC") "t1").result = .declined "access_denied" ∧
      (fitbitOauthCallbackHandler callbackEnvFixture
        ⟨.GET, some "abc", some "st1", some "access_denied", some "u1"⟩
        exchangeOkFixture (fun _ => some "ENC") "t1").exchangeCalls = [] ∧
      (fitbitOauthCallbackHandler callbackEnvFixture
        ⟨.GET, some "abc", some "st1", some "access_denied", some "u1"⟩
        exchangeOkFixture (fun _ => some "ENC") "t1").upserts = []) ∧
    ((fitbitAuthHandler authEnvFixture ⟨.GET, none, none, some "access_denied", none, none⟩
        exchangeOkFixture "t1").exchangeCalls = [] ∧
      (fitbitAuthHandler authEnvFixture ⟨.GET, none, none, some "access_denied", none, none⟩
        exchangeOkFixture "t1").upserts = [] ∧
      (fitbitAuthHandler authEnvFixture ⟨.GET, none, none, some "access_denied", none, none⟩
        exchangeOkFixture "t1").status ≠ 200) :=
  ⟨callback_error_no_exchange_amended.1 callbackEnvFixture
      ⟨.GET, some "abc", some "st1", some "access_denied", some "u1"⟩
      exchangeOkFixture (fun _ => some "ENC") "t1" (by decide) (by decide),
   callback_error_no_exchange_amended.2 authEnvFixture
      ⟨.GET, none, none, some "access_denied", none, none⟩
      exchangeOkFixture "t1" rfl rfl (by decide)⟩

/-- A `fitbit-log-meal` environment with the provider credentials
present but the persistence endpoint and credential absent. -/
def logMealEnvNoDbFixture : LogMealEnv := ⟨some "cid", some "csec", none, none⟩

/-- With the persistence configuration present, the full serve handler
behaves exactly as `fitbitLogMeal`. -/
lemma fitbitLogMealServe_agrees
    (env : LogMealEnv) (profileLoad : Option ProfileRow) (provider : Provider)
    (mealData : MealData) (today now : String)
    (h3 : jsTruthy env.supabaseUrl = true) (h4 : jsTruthy env.supabaseServiceKey = true) :
    fitbitLogMealServe env profileLoad provider mealData today now
      = fitbitLogMeal env profileLoad provider mealData today now := by
  by_cases hfit : (!(jsTruthy env.fitbitClientId) || !(jsTruthy env.fitbitClientSecret)) = true
  · simp [fitbitLogMealServe, fitbitLogMeal, hfit]
  · simp [fitbitLogMealServe, hfit, h3, h4]

/-- Claim C8: an operation whose required configuration is incomplete
fails before any network call and never partially succeeds.
`fitbit-auth` checks all four variables first and answers 500 with no
exchange call and no write. `fitbit-log-meal` rejects missing provider
credentials through its explicit guard and a missing persistence
endpoint/credential through the supabase-js client constructor's throw,
in both cases with no refresh call and no provider write.
`fitbit-oauth-callback` makes no exchange call, writes nothing and never
reports success when any of its five variables is absent, failing with
its missing-environment error page on the exchange path.
(`fitbit-oauth-start` reads no environment configuration — its client id
and callback address are hardcoded — so absent configuration cannot
arise there.) -/
theorem config_missing_fails_before_network :
    (∀ env req tokenEndpoint now, req.method ≠ HttpMethod.OPTIONS →
      (!jsTruthy env.fitbitClientId || !jsTruthy env.fitbitClientSecret
        || !jsTruthy env.supabaseUrl || !jsTruthy env.supabaseServiceKey) = true →
      (fitbitAuthHandler env req tokenEndpoint now).status = 500 ∧
      (fitbitAuthHandler env req tokenEndpoint now).exchangeCalls = [] ∧
      (fitbitAuthHandler env req tokenEndpoint now).upserts = [] ∧
      (fitbitAuthHandler env req tokenEndpoint now).authUrl = none) ∧
    (∀ env profileLoad provider mealData today now,
      (!jsTruthy env.fitbitClientId || !jsTruthy env.fitbitClientSecret
        || !jsTruthy env.supabaseUrl || !jsTruthy env.supabaseServiceKey) = true →
      ((fitbitLogMealServe env profileLoad provider mealData today now).result
          = .error .configError ∨
        (fitbitLogMealServe env profileLoad provider mealData today now).result
          = .error .supabaseClientError) ∧
      (fitbitLogMealServe env profileLoad provider mealData today now).refreshCalls = 0 ∧
      (fitbitLogMealServe env profileLoad provider mealData today now).writeCalls = []) ∧
    (∀ env req tokenEndpoint userProfile now,
      req.method ≠ HttpMethod.OPTIONS →
      (!jsTruthy env.fitbitClientId || !jsTruthy env.fitbitClientSecret
        || !jsTruthy env.fitbitRedirectUri || !jsTruthy env.supabaseUrl
        || !jsTruthy env.supabaseServiceKey) = true →
      (fitbitOauthCallbackHandler env req tokenEndpoint userProfile now).exchangeCalls = [] ∧
      (fitbitOauthCallbackHandler env req tokenEndpoint userProfile now).upserts = [] ∧
      (fitbitOauthCallbackHandler env req tokenEndpoint userProfile now).result
        ≠ .connected ∧
      (jsTruthy req.errorParam = false → jsTruthy req.code = true →
        (fitbitOauthCallbackHandler env req tokenEndpoint userProfile now).result
          = .errorPage "Missing required environment variables")) := by
  refine ⟨?_, ?_, ?_⟩
  · intro env req tokenEndpoint now hm henv
    simp [fitbitAuthHandler, hm, henv]
  · intro env profileLoad provider mealData today now henv
    by_cases hfit : (!(jsTruthy env.fitbitClientId) || !(jsTruthy env.fitbitClientSecret)) = true
    · simp [fitbitLogMealServe, hfit]
    · simp only [Bool.not_eq_true] at hfit
      simp only [hfit, Bool.false_or] at henv
      simp [fitbitLogMealServe, hfit, henv]
  · intro env req tokenEndpoint userProfile now hm henv
    by_cases herr : jsTruthy req.errorParam = true
    · simp [fitbitOauthCallbackHandler, hm, herr]
    · by_cases hcode : jsTruthy req.code = true
      · simp [fitbitOauthCallbackHandler, hm, herr, hcode, henv]
      · simp [fitbitOauthCallbackHandler, hm, herr, hcode]

/-- Witness for `config_missing_fails_before_network`: a missing client
secret stops `fitbit-auth`, a missing persistence configuration stops
`fitbit-log-meal` at the client constructor, and a missing client secret
stops `fitbit-oauth-callback`, each before any call. -/
theorem config_missing_fails_before_network_witness :
    ((fitbitAuthHandler ⟨some "cid", none, some "https://proj.supabase.co", some "srk"⟩
        ⟨.POST, none, none, none, some "Bearer tok", some "u1"⟩
        exchangeOkFixture "t1").status = 500 ∧
      (fitbitAuthHandler ⟨some "cid", none, some "https://proj.supabase.co", some "srk"⟩
        ⟨.POST, none, none, none, some "Bearer tok", some "u1"⟩
        exchangeOkFixture "t1").exchangeCalls = [] ∧
      (fitbitAuthHandler ⟨some "cid", none, some "https://proj.supabase.co", some "srk"⟩
        ⟨.POST, none, none, none, some "Bearer tok", some "u1"⟩
        exchangeOkFixture "t1").upserts = [] ∧
      (fitbitAuthHandler ⟨some "cid", none, some "https://proj.supabase.co", some "srk"⟩
        ⟨.POST, none, none, none, some "Bearer tok", some "u1"⟩
        exchangeOkFixture "t1").authUrl = none) ∧
    (((fitbitLogMealServe logMealEnvNoDbFixture (some profileFixture) providerOkFixture
          mealFixture "2025-01-01" "t1").result = .error .configError ∨
        (fitbitLogMealServe logMealEnvNoDbFixture (some profileFixture) providerOkFixture
          mealFixture "2025-01-01" "t1").result = .error .supabaseClientError) ∧
      (fitbitLogMealServe logMealEnvNoDbFixture (some profileFixture) providerOkFixture
          mealFixture "2025-01-01" "t1").refreshCalls = 0 ∧
      (fitbitLogMealServe logMealEnvNoDbFixture (some profileFixture) providerOkFixture
          mealFixture "2025-01-01" "t1").writeCalls = []) ∧
    ((fitbitOauthCallbackHandler ⟨some "cid", none, some "https://cb.example/cb",
          some "https://proj.supabase.co", some "srk"⟩
        ⟨.GET, some "abc", some "st1", none, some "u1"⟩
        exchangeOkFixture (fun _ => some "ENC") "t1").exchangeCalls = [] ∧
      (fitbitOauthCallbackHandler ⟨some "cid", none, some "https://cb.example/cb",
          some "https://proj.supabase.co", some "srk"⟩
        ⟨.GET, some "abc", some "st1", none, some "u1"⟩
        exchangeOkFixture (fun _ => some "ENC") "t1").result
        = .errorPage "Missing required environment variables") := by
  have h := config_missing_fails_before_network
  have h3 := h.2.2 ⟨some "cid", none, some "https://cb.example/cb",
      some "https://proj.supabase.co", some "srk"⟩
    ⟨.GET, some "abc", some "st1", none, some "u1"⟩
    exchangeOkFixture (fun _ => some "ENC") "t1" (by decide) (by decide)
  exact ⟨h.1 ⟨some "cid", none, some "https://proj.supabase.co", some "srk"⟩
      ⟨.POST, none, none, none, some "Bearer tok", some "u1"⟩ exchangeOkFixture "t1"
      (by decide) (by decide),
    h.2.1 logMealEnvNoDbFixture (some profileFixture) providerOkFixture
      mealFixture "2025-01-01" "t1" (by decide),
    h3.1, h3.2.2.2 rfl rfl⟩

/-- Counterexample to claim C9 as stated: a connect request to
`fitbit-auth` with an empty user id is answered with HTTP 500 through
the generic catch-all — a server-error status, not a 4xx-equivalent. -/
theorem invalid_userid_counterexample :
    jsTruthy (some "") = false ∧
    (fitbitAuthHandler authEnvFixture
        ⟨.POST, none, none, none, some "Bearer tok", some ""⟩
        exchangeOkFixture "t1").status = 500 :=
  ⟨rfl, rfl⟩

/-- Claim C9 amended: a connect request with an absent or empty user id
performs no network call in either implementation; `fitbit-oauth-start`
answers 400 (a caller-error status), while `fitbit-auth` answers 500
through its catch-all rather than a 4xx-equivalent status. -/
theorem invalid_userid_amended :
    (∀ userId uuid, jsTruthy userId = false →
      (fitbitOauthStartHandler userId uuid).status = 400 ∧
      (fitbitOauthStartHandler userId uuid).authUrl = none) ∧
    (∀ env req tokenEndpoint now,
      req.method = HttpMethod.POST → jsTruthy req.authHeader = true →
      jsTruthy req.userId = false →
      (fitbitAuthHandler env req tokenEndpoint now).status ≠ 200 ∧
      ((!jsTruthy env.fitbitClientId || !jsTruthy env.fitbitClientSecret
        || !jsTruthy env.supabaseUrl || !jsTruthy env.supabaseServiceKey) = false →
        (fitbitAuthHandler env req tokenEndpoint now).status = 500) ∧
      (fitbitAuthHandler env req tokenEndpoint now).exchangeCalls = [] ∧
      (fitbitAuthHandler env req tokenEndpoint now).upserts = [] ∧
      (fitbitAuthHandler env req tokenEndpoint now).authUrl = none) := by
  constructor
  · intro userId uuid huid
    simp [fitbitOauthStartHandler, huid]
  · intro env req tokenEndpoint now hm hah huid
    by_cases henv : (!jsTruthy env.fitbitClientId || !jsTruthy env.fitbitClientSecret
        || !jsTruthy env.supabaseUrl || !jsTruthy env.supabaseServiceKey) = true
    · simp [fitbitAuthHandler, hm, henv]
    · simp only [Bool.not_eq_true] at henv
      simp [fitbitAuthHandler, hm, henv, hah, huid]

/-- Witness for `invalid_userid_amended` at an absent user id for
`fitbit-oauth-start` and an empty one for `fitbit-auth`. -/
theorem invalid_userid_amended_witness :
    ((fitbitOauthStartHandler none "uuid0").status = 400 ∧
      (fitbitOauthStartHandler none "uuid0").authUrl = none) ∧
    (fitbitAuthHandler authEnvFixture
        ⟨.POST, none, none, none, some "Bearer tok", some ""⟩
        exchangeOkFixture "t1").status = 500 ∧
    (fitbitAuthHandler authEnvFixture
        ⟨.POST, none, none, none, some "Bearer tok", some ""⟩
        exchangeOkFixture "t1").exchangeCalls = [] := by
  have h := invalid_userid_amended
  have h2 := h.2 authEnvFixture ⟨.POST, none, none, none, some "Bearer tok", some ""⟩
    exchangeOkFixture "t1" rfl (by decide) (by decide)
  exact ⟨h.1 none "uuid0" (by decide), h2.2.1 (by decide), h2.2.2.1⟩

/-- Every provider write of a connected sync carries the translated
payload `fitbitFoodData` built from the input meal. -/
lemma fitbitLogMeal_writeCalls_payload
    (env : LogMealEnv) (profile : ProfileRow) (provider : Provider)
    (mealData : MealData) (today now : String)
    (hc1 : jsTruthy env.fitbitClientId = true)
    (hc2 : jsTruthy env.fitbitClientSecret = true)
    (hconn : jsTruthy profile.fitbit_access_token = true) :
    ∀ c ∈ (fitbitLogMeal env (some profile) provider mealData today now).writeCalls,
      c.payload = buildFitbitFoodData mealData today := by
  intro c hmem
  simp only [fitbitLogMeal, hc1, hc2, hconn, Bool.not_true, Bool.false_or,
    Bool.or_self] at hmem
  repeat' split at hmem
  all_goals simp at hmem
  all_goals rcases hmem with rfl | rfl <;> rfl

/-- A concrete meal whose `servings` field is present and zero. -/
def mealZeroServingsFixture : MealData :=
  ⟨"Test Meal", none, some 0, 300, "lunch", some "2025-01-01"⟩

/-- Counterexample to claim C10 as stated: a sync whose input carries
`servings = 0` sends `amount = 1`, not the input's servings — the
JavaScript `||` default also fires on present-but-falsy values. -/
theorem sync_payload_counterexample :
    mealZeroServingsFixture.servings = some 0 ∧
    ((fitbitLogMeal envOkFixture (some profileFixture) providerOkFixture
        mealZeroServingsFixture "2025-01-02" "t1").writeCalls.map
        (fun c => c.payload.amount)) = [1] :=
  ⟨rfl, rfl⟩

/-- Claim C10 amended: every payload a connected sync sends sets
`unitId` to 147, passes `name` and `calories` through unchanged, sets
`brandName` to the input brand or the empty string when absent, and
applies the defaults for `amount` (1) and `date` (the current date) when
the corresponding input is absent or falsy — absent or zero `servings`,
absent or empty-string `date`; non-falsy values pass through. -/
theorem sync_payload_fields_amended
    (env : LogMealEnv) (profile : ProfileRow) (provider : Provider)
    (mealData : MealData) (today now : String)
    (hc1 : jsTruthy env.fitbitClientId = true)
    (hc2 : jsTruthy env.fitbitClientSecret = true)
    (hconn : jsTruthy profile.fitbit_access_token = true) :
    ∀ c ∈ (fitbitLogMeal env (some profile) provider mealData today now).writeCalls,
      c.payload.unitId = 147 ∧
      c.payload.foodName = mealData.name ∧
      c.payload.calories = mealData.calories ∧
      c.payload.brandName = mealData.brand.getD "" ∧
      (mealData.servings = none ∨ mealData.servings = some 0 → c.payload.amount = 1) ∧
      (∀ n, mealData.servings = some n → n ≠ 0 → c.payload.amount = n) ∧
      (mealData.date = none ∨ mealData.date = some "" → c.payload.date = today) ∧
      (∀ d, mealData.date = some d → d ≠ "" → c.payload.date = d) := by
  intro c hmem
  have hp := fitbitLogMeal_writeCalls_payload env profile provider mealData today now
    hc1 hc2 hconn c hmem
  rw [hp]
  refine ⟨rfl, rfl, rfl, ?_, ?_, ?_, ?_, ?_⟩
  · cases hb : mealData.brand with
    | none => simp [buildFitbitFoodData, jsOrStr, hb]
    | some b =>
      by_cases hbe : b = "" <;> simp [buildFitbitFoodData, jsOrStr, hb, hbe]
  · rintro (h | h) <;> simp [buildFitbitFoodData, jsOrNat, h]
  · intro n hn hne
    simp [buildFitbitFoodData, jsOrNat, hn, hne]
  · rintro (h | h) <;> simp [buildFitbitFoodData, jsOrStr, h]
  · intro d hd hde
    simp [buildFitbitFoodData, jsOrStr, hd, hde]

/-- Witness for `sync_payload_fields_amended` at a concrete connected
sync whose optional fields are all absent. -/
theorem sync_payload_fields_amended_witness :
    firstWriteCall profileFixture mealFixture "2025-01-01"
      ∈ (fitbitLogMeal envOkFixture (some profileFixture) providerOkFixture
          mealFixture "2025-01-01" "t1").writeCalls ∧
    (firstWriteCall profileFixture mealFixture "2025-01-01").payload.unitId = 147 ∧
    (firstWriteCall profileFixture mealFixture "2025-01-01").payload.foodName = "Test Meal" ∧
    (firstWriteCall profileFixture mealFixture "2025-01-01").payload.amount = 1 ∧
    (firstWriteCall profileFixture mealFixture "2025-01-01").payload.brandName = "" ∧
    (firstWriteCall profileFixture mealFixture "2025-01-01").payload.date = "2025-01-01" := by
  have h := sync_payload_fields_amended envOkFixture profileFixture providerOkFixture
    mealFixture "2025-01-01" "t1" (by decide) (by decide) (by decide)
    (firstWriteCall profileFixture mealFixture "2025-01-01") (by decide)
  exact ⟨by decide, h.1, h.2.1, h.2.2.2.2.1 (Or.inl rfl), h.2.2.2.1,
    h.2.2.2.2.2.2.1 (Or.inl rfl)⟩

end FitbitCore
